import Mathlib

/-!
Verification of the cvpysdk exception taxonomy (src/cvpysdk/exception.py) and the
VirtualServerInstance factory dispatch and associated-clients operations
(src/cvpysdk/instances/vsinstance.py), shallowly embedded in Lean 4.

Python values that the code manipulates (strings, ints, bools, lists, dicts, None)
are embedded as the inductive type PyVal; Python dicts are association lists that
keep insertion order.  Raising an exception is embedded as returning an error in
the Except monad; a Python KeyError or TypeError is a PyErr value.
-/

/-- A Python runtime value, as far as this code needs: None, bool, int, str,
list, and dict (association list, insertion ordered). -/
inductive PyVal where
  | pyNone : PyVal
  | pyBool : Bool → PyVal
  | pyInt : Int → PyVal
  | pyStr : String → PyVal
  | pyList : List PyVal → PyVal
  | pyDict : List (String × PyVal) → PyVal
deriving Repr

/-- An SDKException value, carrying module, id and the composed message,
as built by SDKException.__init__ in src/cvpysdk/exception.py. -/
structure SDKExc where
  exception_module : String
  exception_id : String
  exception_message : String
deriving Repr, DecidableEq

/-- A raised Python error: a KeyError (failed dict lookup, carrying the missing key),
a TypeError (bad subscript type), an IndexError, or a successfully constructed
SDKException. -/
inductive PyErr where
  | keyError : String → PyErr
  | typeError : PyErr
  | indexError : PyErr
  | sdkExc : SDKExc → PyErr
deriving Repr, DecidableEq

/-- Python dict membership test on an association list. -/
def pyDictHas (kvs : List (String × PyVal)) (k : String) : Bool :=
  kvs.any (fun kv => kv.1 == k)

/-- Python dict read on an association list (first binding wins). -/
def pyDictGet (kvs : List (String × PyVal)) (k : String) : Option PyVal :=
  match kvs.find? (fun kv => kv.1 == k) with
  | some kv => some kv.2
  | none => none

/-- Python dict assignment d[k] = v: update the binding in place when the key
exists, otherwise append it (insertion order). -/
def pyDictSet (kvs : List (String × PyVal)) (k : String) (v : PyVal) :
    List (String × PyVal) :=
  if pyDictHas kvs k then
    kvs.map (fun kv => if kv.1 == k then (k, v) else kv)
  else
    kvs ++ [(k, v)]

/-- Python subscript v[k]: a dict accepts a string key (KeyError when absent),
a list accepts an int index (IndexError out of range); every other combination,
in particular a string subscript on a list or on None, raises TypeError. -/
def pySubscript (v : PyVal) (k : PyVal) : Except PyErr PyVal :=
  match v, k with
  | .pyDict kvs, .pyStr s =>
    match pyDictGet kvs s with
    | some x => .ok x
    | none => .error (.keyError s)
  | .pyList xs, .pyInt i =>
    if h : 0 ≤ i ∧ i.toNat < xs.length then
      .ok (xs.get ⟨i.toNat, h.2⟩)
    else
      .error .indexError
  | _, _ => .error .typeError

example : pySubscript (.pyList [.pyStr "a"]) (.pyStr "Clients") = .error .typeError := rfl
example : pySubscript (.pyDict [("k", .pyInt 3)]) (.pyStr "k") = .ok (.pyInt 3) := rfl
/-- Embedding of Python str.lower() (the inputs here are ASCII): lower-case the
characters one by one. -/
def pyLower (s : String) : String :=
  String.mk (s.data.map Char.toLower)

example : pyLower "VIRTUALCENTER" = "virtualcenter" := by decide
example : pyLower "VirtualCenter" = "virtualcenter" := by decide

/-! ## The exception catalog of src/cvpysdk/exception.py

EXCEPTION_DICT maps a module name to an inner dictionary mapping an exception id
to the message text.  Each inner dictionary is embedded as a function from the id
to an optional message; EXCEPTION_DICT itself maps the module name to an optional
inner dictionary.  The full table is transcribed from the source. -/

def EXCEPTION_DICT_Response : String → Option String
  | "101" => some "Response was not success"
  | "102" => some "Response received is empty"
  | _ => none

def EXCEPTION_DICT_Commcell : String → Option String
  | "101" => some "Commcell is not reachable. Please check the commcell name and services again"
  | "102" => some "Authtoken not received. Please try again."
  | "103" => some "Failed to get the CommServ details"
  | "104" => some "Failed to send an email to specified user"
  | _ => none

def EXCEPTION_DICT_CVPySDK : String → Option String
  | "101" => some "Failed to Login with the credentials provided"
  | "102" => some ""
  | "103" => some "Reached the maximum attempts limit"
  | "104" => some "This session has expired. Please login again"
  | "105" => some "Script Type is not valid"
  | _ => none

def EXCEPTION_DICT_Client : String → Option String
  | "101" => some "Data type of the input(s) is not valid"
  | "102" => some ""
  | "103" => some "Time Value should be greater than current time"
  | "104" => some "Time Value entered is not of correct format"
  | "105" => some "Script Type is not supported"
  | "106" => some "Failed to get the instance"
  | "107" => some "Service Restart timed out"
  | _ => none

def EXCEPTION_DICT_Agent : String → Option String
  | "101" => some "Data type of the input(s) is not valid"
  | "102" => some ""
  | "103" => some "Time Value should be greater than current time"
  | "104" => some "Time Value entered is not of correct format"
  | _ => none

def EXCEPTION_DICT_Backupset : String → Option String
  | "101" => some "Data type of the input(s) is not valid"
  | "102" => some ""
  | _ => none

def EXCEPTION_DICT_Instance : String → Option String
  | "101" => some "Data type of the input(s) is not valid"
  | "102" => some ""
  | "103" => some "Input date is incorrect"
  | "104" => some "Instance Level Browse is not supported. Instance should have a single backupset"
  | _ => none

def EXCEPTION_DICT_Subclient : String → Option String
  | "101" => some "Data type of the input(s) is not valid"
  | "102" => some ""
  | "103" => some "Backup Level not identified. Please check the backup level again"
  | "104" => some "File/Folder(s) to restore list is empty"
  | "105" => some "Type of client should either be the Client class instance or string"
  | "106" => some "Input date is incorrect"
  | "107" => some "End Date should be greater than the Start Date"
  | "108" => some "Time Value should be greater than current time"
  | "109" => some "Time Value entered is not of correct format"
  | "110" => some "No data found at the path specified"
  | "111" => some "No File/Folder matched the input value"
  | "112" => some "Method Not Implemented"
  | "113" => some "Type of instance should either be the Instance class instance or string"
  | "114" => some "Type of backupset should either be the Backupset class instance or string"
  | _ => none

def EXCEPTION_DICT_Job : String → Option String
  | "101" => some "Incorrect JobId"
  | "102" => some ""
  | "103" => some "No job exists with the specified Job ID"
  | "104" => some "No records found for this Job"
  | _ => none

def EXCEPTION_DICT_Storage : String → Option String
  | "101" => some "Data type of the input(s) is not valid"
  | "102" => some ""
  | "103" => some "Type of media agent should either be the MediaAgent class instance or string"
  | "104" => some "Type of library should either be the DiskLibrary class instance or string"
  | "105" => some "No storage policies exist for this user"
  | _ => none

def EXCEPTION_DICT_Schedules : String → Option String
  | "101" => some "Invalid Class object passed as argument to the Schedules class"
  | "102" => some "Data type of the input(s) is not valid"
  | _ => none

def EXCEPTION_DICT_ClientGroup : String → Option String
  | "101" => some "Data type of the input(s) is not valid"
  | "102" => some ""
  | "103" => some "Time Value should be greater than current time"
  | "104" => some "Time Value entered is not of correct format"
  | _ => none

def EXCEPTION_DICT_UserGroup : String → Option String
  | "101" => some "Data type of the input(s) is not valid"
  | "102" => some ""
  | _ => none

def EXCEPTION_DICT_Domain : String → Option String
  | "101" => some "Data type of the input(s) is not valid"
  | "102" => some ""
  | _ => none

def EXCEPTION_DICT_Alert : String → Option String
  | "101" => some "Data type of the input(s) is not valid"
  | "102" => some ""
  | _ => none

def EXCEPTION_DICT_Workflow : String → Option String
  | "101" => some "Data type of the input(s) is not valid"
  | "102" => some ""
  | "103" => some "Input is not valid XML / file path"
  | "104" => some "No Workflow exists with the given name"
  | _ => none

def EXCEPTION_DICT_Datacube : String → Option String
  | "101" => some "Data type of the input(s) is not valid"
  | "102" => some ""
  | "103" => some "Failed to get the list of analytics engines"
  | "104" => some "Failed to get the datasources"
  | _ => none

def EXCEPTION_DICT_GlobalFilter : String → Option String
  | "101" => some "Data type of the input(s) is not valid"
  | "102" => some ""
  | _ => none

def EXCEPTION_DICT_Plan : String → Option String
  | "101" => some "Data type of the input(s) is not valid"
  | "102" => some ""
  | _ => none

def EXCEPTION_DICT_Salesforce : String → Option String
  | "101" => some "Neither Sync Database enabled nor user provided database details for restore"
  | "102" => some ""
  | _ => none

def EXCEPTION_DICT_Metrics : String → Option String
  | "101" => some "Invalid input(s) specified"
  | _ => none

def EXCEPTION_DICT_InternetOptions : String → Option String
  | "101" => some "Invalid input(s) specified"
  | _ => none

def EXCEPTION_DICT_VirtualMachine : String → Option String
  | "101" => some "Data type of the input(s) is not valid"
  | "102" => some ""
  | _ => none

def EXCEPTION_DICT_User : String → Option String
  | "101" => some "Data type of input(s) is not valid"
  | "102" => some ""
  | _ => none

def EXCEPTION_DICT_Security : String → Option String
  | "101" => some "Data type of input(s) is not valid"
  | "102" => some ""
  | _ => none

def EXCEPTION_DICT_DownloadCenter : String → Option String
  | "101" => some "Response received is not a proper XML. Please check the XML"
  | "102" => some ""
  | "103" => some "Category does not exist at Download Center"
  | "104" => some "Category already exists at Download Center"
  | "105" => some "Sub Category already exists for the given Category at Download Center"
  | "106" => some "Package does not exist at Download Center. Please check the name again"
  | "107" => some "Failed to download the package"
  | "108" => some "Category does not exists at Download Center"
  | "109" => some "Sub Category does not exists at Download Center"
  | "110" => some "Multiple platforms available. Please specify the platform"
  | "111" => some "Multiple download types available for this platform. Please specify the download type"
  | "112" => some "Package is not available for the given platform"
  | "113" => some "Package is not available for the given download type"
  | "114" => some "Package already exists with the given name"
  | "115" => some "Version is not available on Download Center"
  | "116" => some "Platform is not supported on Download Center"
  | "117" => some "Download Type is not supported on Download Center"
  | "118" => some "File is not a valid README file"
  | "119" => some "Failed to upload the package"
  | _ => none

def EXCEPTION_DICT_Organization : String → Option String
  | "101" => some "Data type of the input(s) is not valid"
  | "102" => some ""
  | "103" => some "No organization exists with the given name"
  | "104" => some "Failed to delete the organization"
  | "105" => some "Email address is not valid"
  | "106" => some "Organization already exists"
  | "107" => some "Failed to add organization"
  | "108" => some "Failed to enable Auth Code Generation for the Organization"
  | "109" => some "Failed to disable Auth Code Generation for the Organization"
  | "110" => some "Failed to update the properties of the Organization"
  | "111" => some "Plan is not associated with the organization. Add plan to the Organization, and then set it as the default"
  | _ => none

def EXCEPTION_DICT_StoragePool : String → Option String
  | "101" => some "Data type of the input(s) is not valid"
  | "102" => some ""
  | "103" => some "No storage pool exists with the given name"
  | _ => none

def EXCEPTION_DICT_Monitoring : String → Option String
  | "101" => some "Data type of the input(s) is not valid"
  | "102" => some ""
  | _ => none

/-- The top-level EXCEPTION_DICT of src/cvpysdk/exception.py: module name to
inner id-to-message dictionary. -/
def EXCEPTION_DICT : String → Option (String → Option String)
  | "Response" => some EXCEPTION_DICT_Response
  | "Commcell" => some EXCEPTION_DICT_Commcell
  | "CVPySDK" => some EXCEPTION_DICT_CVPySDK
  | "Client" => some EXCEPTION_DICT_Client
  | "Agent" => some EXCEPTION_DICT_Agent
  | "Backupset" => some EXCEPTION_DICT_Backupset
  | "Instance" => some EXCEPTION_DICT_Instance
  | "Subclient" => some EXCEPTION_DICT_Subclient
  | "Job" => some EXCEPTION_DICT_Job
  | "Storage" => some EXCEPTION_DICT_Storage
  | "Schedules" => some EXCEPTION_DICT_Schedules
  | "ClientGroup" => some EXCEPTION_DICT_ClientGroup
  | "UserGroup" => some EXCEPTION_DICT_UserGroup
  | "Domain" => some EXCEPTION_DICT_Domain
  | "Alert" => some EXCEPTION_DICT_Alert
  | "Workflow" => some EXCEPTION_DICT_Workflow
  | "Datacube" => some EXCEPTION_DICT_Datacube
  | "GlobalFilter" => some EXCEPTION_DICT_GlobalFilter
  | "Plan" => some EXCEPTION_DICT_Plan
  | "Salesforce" => some EXCEPTION_DICT_Salesforce
  | "Metrics" => some EXCEPTION_DICT_Metrics
  | "InternetOptions" => some EXCEPTION_DICT_InternetOptions
  | "Virtual Machine" => some EXCEPTION_DICT_VirtualMachine
  | "User" => some EXCEPTION_DICT_User
  | "Security" => some EXCEPTION_DICT_Security
  | "DownloadCenter" => some EXCEPTION_DICT_DownloadCenter
  | "Organization" => some EXCEPTION_DICT_Organization
  | "StoragePool" => some EXCEPTION_DICT_StoragePool
  | "Monitoring" => some EXCEPTION_DICT_Monitoring
  | _ => none

/-- The unguarded double lookup EXCEPTION_DICT[exception_module][exception_id]
performed by SDKException.__init__: a missing module or a missing id raises a
KeyError carrying the missing key. -/
def EXCEPTION_DICT_lookup (exception_module exception_id : String) :
    Except PyErr String :=
  match EXCEPTION_DICT exception_module with
  | none => .error (.keyError exception_module)
  | some inner =>
    match inner exception_id with
    | none => .error (.keyError exception_id)
    | some base => .ok base

/-- The message composition of SDKException.__init__: when the extra message is
non-empty (Python string truthiness) it either joins the base with a newline
(base non-empty) or replaces it (base empty); otherwise the base stands. -/
def SDKException_compose (base exception_message : String) : String :=
  if exception_message ≠ "" then
    if base ≠ "" then String.intercalate "\n" [base, exception_message]
    else exception_message
  else base

/-- SDKException.__init__ as a value constructor: looks the base message up in
EXCEPTION_DICT (raising KeyError when absent) and composes the final message. -/
def SDKException_init (exception_module exception_id : String)
    (exception_message : String) : Except PyErr SDKExc :=
  match EXCEPTION_DICT_lookup exception_module exception_id with
  | .error e => .error e
  | .ok base =>
    .ok ⟨exception_module, exception_id,
      SDKException_compose base exception_message⟩

/-- The error produced by a raise SDKException(m, i) statement: the constructed
SDKException when construction succeeds, otherwise the KeyError that escaped
from the constructor. -/
def raiseSDK (exception_module exception_id : String)
    (exception_message : String) : PyErr :=
  match SDKException_init exception_module exception_id exception_message with
  | .ok e => .sdkExc e
  | .error err => err

example : SDKException_init "Job" "101" "extra" =
    .ok ⟨"Job", "101", "Incorrect JobId\nextra"⟩ := rfl
example : raiseSDK "Instance" "105" "" = .keyError "105" := rfl

/-! ## VirtualServerInstance factory dispatch (src/cvpysdk/instances/vsinstance.py) -/

/-- The string values of the five members of the hypervisor_type enumeration
referenced by VirtualServerInstance.__new__. -/
structure HypervisorTypeEnum where
  VIRTUAL_CENTER : String
  MS_VIRTUAL_SERVER : String
  AMAZON : String
  AZURE : String
  AZURE_V2 : String

/-- Modelled from the spec: constants.py, which defines the hypervisor_type
enumeration used by VirtualServerInstance.__new__, is not part of the sources
under review.  The spec fixes the generic discriminator as the string that
case-folds to virtualcenter (the VMware family) and lists four vendor specific
types (Hyper-V, Amazon, Azure, Azure Resource Manager), taken here from the
concrete subtype modules the dispatcher imports. -/
def hypervisor_type : HypervisorTypeEnum :=
  { VIRTUAL_CENTER := "VirtualCenter"
    MS_VIRTUAL_SERVER := "Hyper-V"
    AMAZON := "Amazon"
    AZURE := "Azure"
    AZURE_V2 := "Azure Resource Manager" }

/-- The concrete subtypes VirtualServerInstance.__new__ can instantiate. -/
inductive VSSubclass where
  | VMwareInstance
  | HyperVInstance
  | AmazonInstance
  | AzureInstance
  | AzureRMInstance
deriving Repr, DecidableEq

/-- VirtualServerInstance.__new__: compares instance_name for equality against
the lowercased value of each hypervisor_type member, in source order, and
returns the matching concrete subtype; with no else branch the Python function
falls through and returns None, embedded as none. -/
def VirtualServerInstance_new (instance_name : String) : Option VSSubclass :=
  if instance_name == pyLower hypervisor_type.VIRTUAL_CENTER then
    some .VMwareInstance
  else if instance_name == pyLower hypervisor_type.MS_VIRTUAL_SERVER then
    some .HyperVInstance
  else if instance_name == pyLower hypervisor_type.AMAZON then
    some .AmazonInstance
  else if instance_name == pyLower hypervisor_type.AZURE then
    some .AzureInstance
  else if instance_name == pyLower hypervisor_type.AZURE_V2 then
    some .AzureRMInstance
  else
    none

example : VirtualServerInstance_new "virtualcenter" = some .VMwareInstance := by decide
example : VirtualServerInstance_new "VirtualCenter" = none := by decide
example : VirtualServerInstance_new "hyper-v" = some .HyperVInstance := by decide

/-! ## associated_clients getter, setter and co_ordinator -/

/-- The body of the loop in the associated_clients getter: each member entry is
read as entry[client][clientName] (string subscripts, so a malformed entry
raises as in Python). -/
def extract_client_names : List PyVal → Except PyErr (List PyVal)
  | [] => .ok []
  | client :: rest =>
    match pySubscript client (.pyStr "client") with
    | .error e => .error e
    | .ok c =>
      match pySubscript c (.pyStr "clientName") with
      | .error e => .error e
      | .ok n =>
        match extract_client_names rest with
        | .error e => .error e
        | .ok ns => .ok (n :: ns)

/-- The associated_clients getter: when the memberServers key is present in the
associated-clients dictionary it returns the list of the nested client names;
when the key is absent the Python function falls off the end and returns None. -/
def associated_clients_get (asscociatedclients : List (String × PyVal)) :
    Except PyErr PyVal :=
  if pyDictHas asscociatedclients "memberServers" then
    match pyDictGet asscociatedclients "memberServers" with
    | some (.pyList members) =>
      match extract_client_names members with
      | .error e => .error e
      | .ok names => .ok (.pyList names)
    | _ => .error .typeError
  else
    .ok .pyNone

/-- The co_ordinator getter: reads the associated_clients property and then
evaluates _associated_clients[Clients][0] with Python subscript semantics. -/
def co_ordinator (asscociatedclients : List (String × PyVal)) :
    Except PyErr PyVal :=
  match associated_clients_get asscociatedclients with
  | .error e => .error e
  | .ok ac =>
    match pySubscript ac (.pyStr "Clients") with
    | .error e => .error e
    | .ok clients => pySubscript clients (.pyInt 0)

/-- One iteration of the second loop of the associated_clients setter: builds
client_json, client_group_json and common_json, resolves the name against the
client lookup and then the client-group lookup, and on success returns the
final_json descriptor; both lookups failing raises SDKException(Instance, 105).
client_json and client_group_json are built and never used, as in the source. -/
def setter_resolve_one (has_client has_clientgroup : String → Bool)
    (client_name : String) : Except PyErr PyVal :=
  let _client_json : PyVal := .pyDict [("clientName", .pyStr client_name)]
  let _client_group_json : PyVal := .pyDict [("clientGroupName", .pyStr client_name)]
  let common_json : List (String × PyVal) :=
    [("srmReportSet", .pyInt 0),
     ("type", .pyInt 0),
     ("srmReportType", .pyInt 0),
     ("clientSidePackage", .pyBool true),
     ("_type_", .pyInt 28),
     ("consumeLicense", .pyBool true)]
  if has_client client_name then
    .ok (.pyDict [("client", .pyDict (pyDictSet common_json "clientName" (.pyStr client_name)))])
  else if has_clientgroup client_name then
    .ok (.pyDict [("client", .pyDict (pyDictSet common_json "clientName" (.pyStr client_name)))])
  else
    .error (raiseSDK "Instance" "105" "")

/-- The second loop of the setter: resolve every entry in order, appending the
descriptors to client_json_list; the first unresolved name raises.  After the
type-check loop every entry is a string; a non-string reaching this loop would
make the lookup calls ill-typed, embedded as a TypeError. -/
def build_client_json_list (has_client has_clientgroup : String → Bool) :
    List PyVal → Except PyErr (List PyVal)
  | [] => .ok []
  | .pyStr client_name :: rest =>
    match setter_resolve_one has_client has_clientgroup client_name with
    | .error e => .error e
    | .ok final_json =>
      match build_client_json_list has_client has_clientgroup rest with
      | .error e => .error e
      | .ok others => .ok (final_json :: others)
  | _ :: _ => .error .typeError

/-- Python isinstance(x, str). -/
def isStrVal : PyVal → Bool
  | .pyStr _ => true
  | _ => false

/-- The associated_clients setter: first loop checks every entry with
isinstance(str) and raises SDKException(Instance, 105) on the first failure;
the second loop resolves each name into a descriptor; finally the complete
memberServers dictionary is submitted via _set_instance_properties at the
attribute path _virtualserverinstance[associatedClients].  The embedding
returns the submitted associatedClients value; an error means the setter
raised before any submission happened. -/
def associated_clients_set (has_client has_clientgroup : String → Bool)
    (clients_list : List PyVal) : Except PyErr PyVal :=
  if clients_list.all isStrVal then
    match build_client_json_list has_client has_clientgroup clients_list with
    | .error e => .error e
    | .ok client_json_list => .ok (.pyDict [("memberServers", .pyList client_json_list)])
  else
    .error (raiseSDK "Instance" "105" "")

mutual

/-- Whether the string k occurs as a dictionary key anywhere inside a value. -/
def pyValHasKey (k : String) : PyVal → Bool
  | .pyDict kvs => pyKvsHasKey k kvs
  | .pyList xs => pyListHasKey k xs
  | _ => false

/-- Whether the string k occurs as a dictionary key anywhere inside a list. -/
def pyListHasKey (k : String) : List PyVal → Bool
  | [] => false
  | x :: xs => pyValHasKey k x || pyListHasKey k xs

/-- Whether the string k is a key of the association list or occurs inside one
of its values. -/
def pyKvsHasKey (k : String) : List (String × PyVal) → Bool
  | [] => false
  | (k2, v) :: rest => k2 == k || pyValHasKey k v || pyKvsHasKey k rest

end

/-- The member-server descriptor the setter builds for a resolved name: the
common_json defaults with clientName assigned last, wrapped under the client
key.  Both resolution branches of the setter produce exactly this value. -/
def member_server_json (client_name : String) : PyVal :=
  .pyDict [("client", .pyDict
    [("srmReportSet", .pyInt 0),
     ("type", .pyInt 0),
     ("srmReportType", .pyInt 0),
     ("clientSidePackage", .pyBool true),
     ("_type_", .pyInt 28),
     ("consumeLicense", .pyBool true),
     ("clientName", .pyStr client_name)])]

example : setter_resolve_one (fun _ => true) (fun _ => false) "c1"
    = .ok (member_server_json "c1") := rfl
example : setter_resolve_one (fun _ => false) (fun _ => true) "g1"
    = .ok (member_server_json "g1") := rfl
example : associated_clients_set (fun _ => true) (fun _ => false) [.pyStr "c1"]
    = .ok (.pyDict [("memberServers", .pyList [member_server_json "c1"])]) := rfl
example : associated_clients_get [("memberServers", .pyList [member_server_json "c1"])]
    = .ok (.pyList [.pyStr "c1"]) := rfl
example : co_ordinator [("memberServers", .pyList [member_server_json "c1"])]
    = .error .typeError := rfl
example : co_ordinator [("memberServers", .pyList [])] = .error .typeError := rfl

/-! ## Helper lemmas -/

theorem setter_resolve_one_ok_client (has_client has_clientgroup : String → Bool)
    (n : String) (h : has_client n = true) :
    setter_resolve_one has_client has_clientgroup n = .ok (member_server_json n) := by
  simp [setter_resolve_one, h, member_server_json, pyDictSet, pyDictHas]

theorem setter_resolve_one_ok_group (has_client has_clientgroup : String → Bool)
    (n : String) (h1 : has_client n = false) (h2 : has_clientgroup n = true) :
    setter_resolve_one has_client has_clientgroup n = .ok (member_server_json n) := by
  simp [setter_resolve_one, h1, h2, member_server_json, pyDictSet, pyDictHas]

theorem setter_resolve_one_err (has_client has_clientgroup : String → Bool)
    (n : String) (h1 : has_client n = false) (h2 : has_clientgroup n = false) :
    setter_resolve_one has_client has_clientgroup n
      = .error (raiseSDK "Instance" "105" "") := by
  simp [setter_resolve_one, h1, h2]

theorem setter_resolve_one_shape (has_client has_clientgroup : String → Bool)
    (n : String) (v : PyVal)
    (h : setter_resolve_one has_client has_clientgroup n = .ok v) :
    v = member_server_json n := by
  by_cases hc : has_client n = true
  · rw [setter_resolve_one_ok_client has_client has_clientgroup n hc] at h
    exact (Except.ok.injEq _ _ ▸ h).symm
  · by_cases hg : has_clientgroup n = true
    · rw [setter_resolve_one_ok_group has_client has_clientgroup n
        (Bool.not_eq_true _ ▸ hc) hg] at h
      exact (Except.ok.injEq _ _ ▸ h).symm
    · rw [setter_resolve_one_err has_client has_clientgroup n
        (Bool.not_eq_true _ ▸ hc) (Bool.not_eq_true _ ▸ hg)] at h
      exact absurd h (by simp)

theorem build_all_clients (has_client has_clientgroup : String → Bool)
    (names : List String) (h : ∀ n ∈ names, has_client n = true) :
    build_client_json_list has_client has_clientgroup (names.map .pyStr)
      = .ok (names.map member_server_json) := by
  induction names with
  | nil => rfl
  | cons n rest ih =>
    have hn : has_client n = true := h n (by simp)
    have hrest := ih (fun m hm => h m (by simp [hm]))
    simp [build_client_json_list,
      setter_resolve_one_ok_client has_client has_clientgroup n hn, hrest]

theorem extract_member_servers (names : List String) :
    extract_client_names (names.map member_server_json)
      = .ok (names.map .pyStr) := by
  induction names with
  | nil => rfl
  | cons n rest ih =>
    simp [extract_client_names, member_server_json, pySubscript, pyDictGet, ih]

theorem build_unresolved (has_client has_clientgroup : String → Bool)
    (l : List PyVal) (name : String)
    (hmem : PyVal.pyStr name ∈ l)
    (h1 : has_client name = false) (h2 : has_clientgroup name = false)
    (hall : l.all isStrVal = true) :
    build_client_json_list has_client has_clientgroup l
      = .error (raiseSDK "Instance" "105" "") := by
  induction l with
  | nil => simp at hmem
  | cons x rest ih =>
    have hx : isStrVal x = true := by
      have := List.all_eq_true.mp hall x (by simp)
      exact this
    have hrest : rest.all isStrVal = true := by
      refine List.all_eq_true.mpr (fun y hy => List.all_eq_true.mp hall y (by simp [hy]))
    cases x with
    | pyStr s =>
      by_cases hs : s = name
      · subst hs
        simp [build_client_json_list,
          setter_resolve_one_err has_client has_clientgroup s h1 h2]
      · have hmem2 : PyVal.pyStr name ∈ rest := by
          rcases List.mem_cons.mp hmem with h | h
          · exact absurd (PyVal.pyStr.injEq _ _ ▸ h.symm) hs
          · exact h
        have hb := ih hmem2 hrest
        by_cases hcs : has_client s = true
        · simp [build_client_json_list,
            setter_resolve_one_ok_client has_client has_clientgroup s hcs, hb]
        · by_cases hgs : has_clientgroup s = true
          · simp [build_client_json_list,
              setter_resolve_one_ok_group has_client has_clientgroup s
                (Bool.not_eq_true _ ▸ hcs) hgs, hb]
          · simp [build_client_json_list,
              setter_resolve_one_err has_client has_clientgroup s
                (Bool.not_eq_true _ ▸ hcs) (Bool.not_eq_true _ ▸ hgs)]
    | pyNone => simp [isStrVal] at hx
    | pyBool b => simp [isStrVal] at hx
    | pyInt i => simp [isStrVal] at hx
    | pyList xs => simp [isStrVal] at hx
    | pyDict kvs => simp [isStrVal] at hx

theorem member_server_json_no_group_key (n : String) :
    pyValHasKey "clientGroupName" (member_server_json n) = false := by
  simp [member_server_json, pyValHasKey, pyKvsHasKey, pyListHasKey]

theorem list_of_member_servers_no_group_key (js : List PyVal)
    (h : ∀ j ∈ js, ∃ n, j = member_server_json n) :
    pyListHasKey "clientGroupName" js = false := by
  induction js with
  | nil => rfl
  | cons j rest ih =>
    rcases h j (by simp) with ⟨n, rfl⟩
    simp [pyListHasKey, member_server_json_no_group_key n,
      ih (fun j2 hj2 => h j2 (by simp [hj2]))]

theorem build_ok_shapes (has_client has_clientgroup : String → Bool)
    (l : List PyVal) (js : List PyVal)
    (h : build_client_json_list has_client has_clientgroup l = .ok js) :
    ∀ j ∈ js, ∃ n, j = member_server_json n := by
  induction l generalizing js with
  | nil =>
    simp [build_client_json_list] at h
    subst h
    simp
  | cons x rest ih =>
    cases x with
    | pyStr s =>
      simp only [build_client_json_list] at h
      cases hr : setter_resolve_one has_client has_clientgroup s with
      | error e => rw [hr] at h; exact absurd h (by simp)
      | ok final_json =>
        rw [hr] at h
        cases hb : build_client_json_list has_client has_clientgroup rest with
        | error e => rw [hb] at h; exact absurd h (by simp)
        | ok others =>
          rw [hb] at h
          have hjs : js = final_json :: others := by
            exact (Except.ok.injEq _ _ ▸ h.symm)
          subst hjs
          intro j hj
          rcases List.mem_cons.mp hj with h' | h'
          · subst h'
            exact ⟨s, setter_resolve_one_shape has_client has_clientgroup s _ hr⟩
          · exact ih others hb j h'
    | pyNone => exact absurd h (by simp [build_client_json_list])
    | pyBool b => exact absurd h (by simp [build_client_json_list])
    | pyInt i => exact absurd h (by simp [build_client_json_list])
    | pyList xs => exact absurd h (by simp [build_client_json_list])
    | pyDict kvs => exact absurd h (by simp [build_client_json_list])

/-! ## Claims -/

/-- C1, counterexample: the string VIRTUALCENTER case-folds to virtualcenter,
yet VirtualServerInstance.__new__ does not select the VMware subtype for it
(the dispatcher never case-folds instance_name, only the discriminator
constants), refuting the claimed case-insensitive match. -/
theorem claim_C1_counterexample :
    pyLower "VIRTUALCENTER" = "virtualcenter"
    ∧ VirtualServerInstance_new "VIRTUALCENTER" ≠ some VSSubclass.VMwareInstance := by
  constructor
  · decide
  · decide

/-- C1, amended: VirtualServerInstance.__new__ compares instance_name by exact,
case-sensitive equality with the lowercased discriminator values, in a fixed
priority order with the first match winning; consequently exactly the
all-lowercase spelling of the virtualcenter discriminator selects the
VMware-family subtype, and no other string (in particular no mixed-case
variant) does. -/
theorem claim_C1_dispatch :
    (∀ s, VirtualServerInstance_new s = some VSSubclass.VMwareInstance
      ↔ s = pyLower hypervisor_type.VIRTUAL_CENTER)
    ∧ pyLower hypervisor_type.VIRTUAL_CENTER = "virtualcenter" := by
  constructor
  · intro s
    constructor
    · intro h
      unfold VirtualServerInstance_new at h
      split_ifs at h with h1 h2 h3 h4 h5
      · exact eq_of_beq h1
      all_goals simp_all
    · intro h
      subst h
      decide
  · decide

/-- C2, counterexample: at the concrete unmatched discriminator xenserver the
construction does not fail with any error: VirtualServerInstance.__new__ falls
through its if-elif chain, which has no else branch, and yields None (embedded
as none) — exactly the uninitialized, unusable result the claim rules out.  No
UnsupportedInstanceType failure exists anywhere in the code. -/
theorem claim_C2_counterexample :
    VirtualServerInstance_new "xenserver" = none := by
  decide

/-- C2, amended: for every instance_name matching none of the five lowercased
discriminator values, VirtualServerInstance construction yields None rather
than an object or an UnsupportedInstanceType failure. -/
theorem claim_C2_no_match_returns_none :
    ∀ s, s ∉ ([pyLower hypervisor_type.VIRTUAL_CENTER,
        pyLower hypervisor_type.MS_VIRTUAL_SERVER,
        pyLower hypervisor_type.AMAZON,
        pyLower hypervisor_type.AZURE,
        pyLower hypervisor_type.AZURE_V2] : List String) →
      VirtualServerInstance_new s = none := by
  intro s hs
  simp only [List.mem_cons, List.not_mem_nil, or_false, not_or] at hs
  obtain ⟨n1, n2, n3, n4, n5⟩ := hs
  unfold VirtualServerInstance_new
  split_ifs with h1 h2 h3 h4 h5
  · exact absurd (eq_of_beq h1) n1
  · exact absurd (eq_of_beq h2) n2
  · exact absurd (eq_of_beq h3) n3
  · exact absurd (eq_of_beq h4) n4
  · exact absurd (eq_of_beq h5) n5
  · rfl

/-- C2, witness: the unmatched discriminator oraclevm yields none. -/
theorem claim_C2_witness :
    VirtualServerInstance_new "oraclevm" = none :=
  claim_C2_no_match_returns_none "oraclevm" (by decide)

/-- C3: the Instance entry of EXCEPTION_DICT contains exactly the ids 101
through 104; SDKException.__init__ performs an unguarded catalog lookup, so any
(module, id) pair absent from the catalog makes constructing the exception
itself fail with a KeyError; in particular a raise SDKException(Instance, 105)
statement raises KeyError 105; and the two failure branches of the
associated_clients setter (non-string entry, unresolved name) produce exactly
the same raised error and are therefore indistinguishable. -/
theorem claim_C3_missing_instance_105 :
    (∀ i, (EXCEPTION_DICT_Instance i).isSome
      ↔ i ∈ (["101", "102", "103", "104"] : List String))
    ∧ (∀ m i msg inner, EXCEPTION_DICT m = some inner → inner i = none →
        SDKException_init m i msg = .error (.keyError i))
    ∧ raiseSDK "Instance" "105" "" = .keyError "105"
    ∧ associated_clients_set (fun _ => false) (fun _ => false) [.pyBool true]
      = associated_clients_set (fun _ => false) (fun _ => false) [.pyStr "ghost"] := by
  refine ⟨?_, ?_, rfl, rfl⟩
  · intro i
    constructor
    · intro h
      unfold EXCEPTION_DICT_Instance at h
      split at h <;> simp_all
    · intro h
      simp only [List.mem_cons, List.not_mem_nil, or_false] at h
      rcases h with h | h | h | h <;> subst h <;> decide
  · intro m i msg inner hm hi
    simp [SDKException_init, EXCEPTION_DICT_lookup, hm, hi]

/-- C3, witness: constructing SDKException(Instance, 105) fails with
KeyError 105. -/
theorem claim_C3_witness :
    SDKException_init "Instance" "105" "" = .error (.keyError "105") :=
  claim_C3_missing_instance_105.2.1 "Instance" "105" "" EXCEPTION_DICT_Instance rfl rfl

/-- C4: a non-string entry anywhere in the list makes the associated_clients
setter fail with the error of its type-check branch, the raise
SDKException(Instance, 105) statement, and no payload is ever produced for
submission, whatever the client and client-group lookups say: the type-check
loop runs before any descriptor is built or submitted. -/
theorem claim_C4_type_check_before_submit :
    ∀ (has_client has_clientgroup : String → Bool) (clients_list : List PyVal),
    (∃ e ∈ clients_list, isStrVal e = false) →
    associated_clients_set has_client has_clientgroup clients_list
      = .error (raiseSDK "Instance" "105" "")
    ∧ ∀ payload, associated_clients_set has_client has_clientgroup clients_list
      ≠ .ok payload := by
  intro has_client has_clientgroup clients_list hex
  have hall : clients_list.all isStrVal = false := by
    rcases hex with ⟨e, he, hne⟩
    cases hb : clients_list.all isStrVal with
    | false => rfl
    | true =>
      have := List.all_eq_true.mp hb e he
      rw [this] at hne
      exact absurd hne (by simp)
  constructor
  · simp [associated_clients_set, hall]
  · intro payload
    simp [associated_clients_set, hall]

/-- C4, witness: a list holding the integer 3 makes the setter fail with the
type-check error and produce no submission. -/
theorem claim_C4_witness :
    associated_clients_set (fun _ => true) (fun _ => true) [.pyInt 3]
      = .error (raiseSDK "Instance" "105" "")
    ∧ ∀ payload, associated_clients_set (fun _ => true) (fun _ => true) [.pyInt 3]
      ≠ .ok payload :=
  claim_C4_type_check_before_submit (fun _ => true) (fun _ => true) [.pyInt 3]
    ⟨.pyInt 3, by simp, rfl⟩

/-- C5: an input containing a string name that the client lookup and the
client-group lookup (tried in that order) both reject makes the
associated_clients setter fail with the error of its unresolved-name branch,
the raise SDKException(Instance, 105) statement. -/
theorem claim_C5_unresolved_name_fails :
    ∀ (has_client has_clientgroup : String → Bool) (clients_list : List PyVal)
      (name : String),
    PyVal.pyStr name ∈ clients_list →
    has_client name = false → has_clientgroup name = false →
    associated_clients_set has_client has_clientgroup clients_list
      = .error (raiseSDK "Instance" "105" "") := by
  intro has_client has_clientgroup clients_list name hmem h1 h2
  by_cases hall : clients_list.all isStrVal = true
  · simp [associated_clients_set, hall,
      build_unresolved has_client has_clientgroup clients_list name hmem h1 h2 hall]
  · simp [associated_clients_set, Bool.not_eq_true _ ▸ hall]

/-- C5, witness: the unknown name ghost, rejected by both lookups, makes the
setter fail. -/
theorem claim_C5_witness :
    associated_clients_set (fun _ => false) (fun _ => false) [.pyStr "ghost"]
      = .error (raiseSDK "Instance" "105" "") :=
  claim_C5_unresolved_name_fails (fun _ => false) (fun _ => false)
    [.pyStr "ghost"] "ghost" (by simp) rfl rfl

/-- C6: on an instance whose associated-clients structure holds exactly one
member server named client1, the getter returns the one-element name list, yet
co_ordinator does not return that first name: it subscripts the returned list
with the string Clients, which raises a TypeError; and on an instance with zero
associated clients co_ordinator raises the same TypeError rather than any
NoCoordinatorAssigned error.  The claimed behaviour never occurs in the code. -/
theorem claim_C6_co_ordinator_type_error :
    associated_clients_get
      [("memberServers", .pyList [member_server_json "client1"])]
      = .ok (.pyList [.pyStr "client1"])
    ∧ co_ordinator [("memberServers", .pyList [member_server_json "client1"])]
      = .error .typeError
    ∧ co_ordinator [("memberServers", .pyList [])] = .error .typeError := by
  refine ⟨rfl, rfl, rfl⟩

/-- C7: SDKException message composition follows the resolution rule: with a
non-empty base and a supplied detail the final message is the base and the
detail joined by a newline; with an empty base and a supplied detail the detail
is the whole message; with no detail the message is the base, possibly empty;
and in particular SDKException(Job, 101, extra) carries the message
Incorrect JobId, a newline, then extra. -/
theorem claim_C7_message_composition :
    (∀ m c detail base, EXCEPTION_DICT_lookup m c = .ok base →
      SDKException_init m c detail = .ok ⟨m, c,
        if base ≠ "" ∧ detail ≠ "" then base ++ "\n" ++ detail
        else if detail ≠ "" then detail
        else base⟩)
    ∧ SDKException_init "Job" "101" "extra"
      = .ok ⟨"Job", "101", "Incorrect JobId\nextra"⟩ := by
  constructor
  · intro m c detail base h
    simp only [SDKException_init, h]
    congr 1
    simp only [SDKException_compose]
    by_cases hd : detail = ""
    · simp [hd]
    · by_cases hb : base = ""
      · simp [hd, hb]
      · simp [hd, hb, String.intercalate, String.intercalate.go]
  · rfl

/-- C7, witness: SDKException(CVPySDK, 102, x), whose base message is empty,
carries x as its whole message. -/
theorem claim_C7_witness :
    SDKException_init "CVPySDK" "102" "x" = .ok ⟨"CVPySDK", "102", "x"⟩ := by
  have h := claim_C7_message_composition.1 "CVPySDK" "102" "x" "" (by rfl)
  simpa using h

/-- C8: resolving a (module, id) pair present in EXCEPTION_DICT yields exactly
the stored message string, with Response 101 resolving to
Response was not success; a module absent from the catalog fails at the outer
lookup with a KeyError carrying the module name (the unknown-module failure),
and a known module with an absent id fails at the inner lookup with a KeyError
carrying the id (the unknown-code failure). -/
theorem claim_C8_catalog_resolution :
    (∀ m c inner base, EXCEPTION_DICT m = some inner → inner c = some base →
      EXCEPTION_DICT_lookup m c = .ok base)
    ∧ (∀ m c, EXCEPTION_DICT m = none →
        EXCEPTION_DICT_lookup m c = .error (.keyError m))
    ∧ (∀ m c inner, EXCEPTION_DICT m = some inner → inner c = none →
        EXCEPTION_DICT_lookup m c = .error (.keyError c))
    ∧ EXCEPTION_DICT_lookup "Response" "101" = .ok "Response was not success" := by
  refine ⟨?_, ?_, ?_, rfl⟩
  · intro m c inner base hm hc
    simp [EXCEPTION_DICT_lookup, hm, hc]
  · intro m c hm
    simp [EXCEPTION_DICT_lookup, hm]
  · intro m c inner hm hc
    simp [EXCEPTION_DICT_lookup, hm, hc]

/-- C8, witness: a present pair, an unknown module and an unknown id of a known
module, each at a concrete input. -/
theorem claim_C8_witness :
    EXCEPTION_DICT_lookup "Job" "103" = .ok "No job exists with the specified Job ID"
    ∧ EXCEPTION_DICT_lookup "NoSuchModule" "101" = .error (.keyError "NoSuchModule")
    ∧ EXCEPTION_DICT_lookup "Instance" "105" = .error (.keyError "105") :=
  ⟨claim_C8_catalog_resolution.1 "Job" "103" EXCEPTION_DICT_Job
      "No job exists with the specified Job ID" rfl rfl,
   claim_C8_catalog_resolution.2.1 "NoSuchModule" "101" rfl,
   claim_C8_catalog_resolution.2.2.1 "Instance" "105" EXCEPTION_DICT_Instance rfl rfl⟩

/-- C9: when every name in the input resolves as a known client, the setter
submits as the new associated-clients value the complete memberServers list
built from the input alone (a full replacement: the prior list does not enter
the computation), and reading that submitted structure back through the getter
returns exactly the input name sequence. -/
theorem claim_C9_setter_getter_round_trip :
    ∀ (has_client has_clientgroup : String → Bool) (names : List String),
    (∀ n ∈ names, has_client n = true) →
    associated_clients_set has_client has_clientgroup (names.map .pyStr)
      = .ok (.pyDict [("memberServers", .pyList (names.map member_server_json))])
    ∧ associated_clients_get
        [("memberServers", .pyList (names.map member_server_json))]
      = .ok (.pyList (names.map .pyStr)) := by
  intro has_client has_clientgroup names h
  have hall : (names.map PyVal.pyStr).all isStrVal = true := by
    refine List.all_eq_true.mpr (fun x hx => ?_)
    rcases List.mem_map.mp hx with ⟨n, _, rfl⟩
    rfl
  constructor
  · simp [associated_clients_set, hall,
      build_all_clients has_client has_clientgroup names h]
  · simp [associated_clients_get, pyDictHas, pyDictGet,
      extract_member_servers names]

/-- C9, witness: the two known clients proxy1 and proxy2 round-trip. -/
theorem claim_C9_witness :
    associated_clients_set (fun _ => true) (fun _ => false)
      [.pyStr "proxy1", .pyStr "proxy2"]
      = .ok (.pyDict [("memberServers",
          .pyList [member_server_json "proxy1", member_server_json "proxy2"])])
    ∧ associated_clients_get
        [("memberServers",
          .pyList [member_server_json "proxy1", member_server_json "proxy2"])]
      = .ok (.pyList [.pyStr "proxy1", .pyStr "proxy2"]) :=
  claim_C9_setter_getter_round_trip (fun _ => true) (fun _ => false)
    ["proxy1", "proxy2"] (fun _ _ => rfl)

/-- C10: a name resolved through the client-group branch (not a known client,
a known client group) yields exactly the same descriptor as the client branch,
keyed client with clientName and the fixed default fields; and no payload the
setter ever submits contains the key clientGroupName anywhere, so the
client_group_json structure built inside the loop never reaches the
submission. -/
theorem claim_C10_group_descriptor_shape :
    ∀ (has_client has_clientgroup : String → Bool) (name : String)
      (clients_list : List PyVal) (payload : PyVal),
    (has_client name = false → has_clientgroup name = true →
      setter_resolve_one has_client has_clientgroup name
        = .ok (member_server_json name)
      ∧ setter_resolve_one (fun _ => true) has_clientgroup name
        = .ok (member_server_json name))
    ∧ (associated_clients_set has_client has_clientgroup clients_list = .ok payload →
        pyValHasKey "clientGroupName" payload = false) := by
  intro has_client has_clientgroup name clients_list payload
  constructor
  · intro h1 h2
    exact ⟨setter_resolve_one_ok_group has_client has_clientgroup name h1 h2,
      setter_resolve_one_ok_client (fun _ => true) has_clientgroup name rfl⟩
  · intro h
    by_cases hall : clients_list.all isStrVal = true
    · simp only [associated_clients_set, hall, if_true] at h
      cases hb : build_client_json_list has_client has_clientgroup clients_list with
      | error e => rw [hb] at h; exact absurd h (by simp)
      | ok js =>
        rw [hb] at h
        have hpayload : payload = .pyDict [("memberServers", .pyList js)] :=
          (Except.ok.injEq _ _ ▸ h.symm)
        subst hpayload
        have hshapes := build_ok_shapes has_client has_clientgroup clients_list js hb
        have hlist := list_of_member_servers_no_group_key js hshapes
        simp [pyValHasKey, pyKvsHasKey, hlist]
    · simp only [associated_clients_set, Bool.not_eq_true _ ▸ hall,
        if_false] at h
      exact absurd h (by simp)

/-- C10, witness: the name grp1, a client group that is not a client, produces
the client-shaped descriptor, and the payload submitted for it has no
clientGroupName key. -/
theorem claim_C10_witness :
    (setter_resolve_one (fun _ => false) (fun _ => true) "grp1"
      = .ok (member_server_json "grp1"))
    ∧ pyValHasKey "clientGroupName"
        (.pyDict [("memberServers", .pyList [member_server_json "grp1"])]) = false :=
  ⟨(claim_C10_group_descriptor_shape (fun _ => false) (fun _ => true) "grp1"
      [.pyStr "grp1"]
      (.pyDict [("memberServers", .pyList [member_server_json "grp1"])])).1
        rfl rfl |>.1,
   (claim_C10_group_descriptor_shape (fun _ => false) (fun _ => true) "grp1"
      [.pyStr "grp1"]
      (.pyDict [("memberServers", .pyList [member_server_json "grp1"])])).2 rfl⟩
